import Mathlib

/-!
Verification of the two-stage food-analysis pipeline of the food_backend
repository.  The Python source is shallowly embedded: pure functions become
Lean functions over `ℚ` (Python's decimal rounding `round(x, n)` is modelled
by exact round-half-even on rationals), dictionaries observed only through
`.get(k, default)` become total functions, dictionaries whose key-presence
matters become `Option`-valued maps, and network calls become explicit
oracles (environments) passed as arguments.
-/

/-! ### Python rounding

`round(x, ndigits)` in Python rounds half to even.  `pyRoundQ` is that
rounding to an integer, `pyRound1`/`pyRound2` are `round(x, 1)`/`round(x, 2)`.
-/

def pyRoundQ (q : ℚ) : ℤ :=
  if q - (⌊q⌋ : ℚ) < 1/2 then ⌊q⌋
  else if 1/2 < q - (⌊q⌋ : ℚ) then ⌊q⌋ + 1
  else if ⌊q⌋ % 2 = 0 then ⌊q⌋ else ⌊q⌋ + 1

def pyRound1 (q : ℚ) : ℚ := (pyRoundQ (q * 10) : ℚ) / 10

def pyRound2 (q : ℚ) : ℚ := (pyRoundQ (q * 100) : ℚ) / 100

theorem pyRoundQ_abs_le (q : ℚ) : |(pyRoundQ q : ℚ) - q| ≤ 1/2 := by
  unfold pyRoundQ
  have h0 : (0:ℚ) ≤ q - (⌊q⌋ : ℚ) := sub_nonneg.mpr (Int.floor_le q)
  have h1 : q - (⌊q⌋ : ℚ) < 1 := by
    have := Int.lt_floor_add_one q
    linarith
  split_ifs with ha hb hc
  · rw [abs_le]; constructor <;> linarith
  · push_cast
    rw [abs_le]; constructor <;> linarith
  · push_neg at ha hb
    have hr : q - (⌊q⌋ : ℚ) = 1/2 := le_antisymm hb ha
    rw [abs_le]; constructor <;> linarith
  · push_neg at ha hb
    have hr : q - (⌊q⌋ : ℚ) = 1/2 := le_antisymm hb ha
    push_cast
    rw [abs_le]; constructor <;> linarith

theorem pyRound1_abs_le (q : ℚ) : |pyRound1 q - q| ≤ 1/20 := by
  have h := pyRoundQ_abs_le (q * 10)
  have hd : pyRound1 q - q = ((pyRoundQ (q * 10) : ℚ) - q * 10) / 10 := by
    unfold pyRound1; ring
  rw [hd, abs_div]
  rw [abs_of_nonneg (by norm_num : (0:ℚ) ≤ 10)]
  calc |(pyRoundQ (q * 10) : ℚ) - q * 10| / 10 ≤ (1/2) / 10 := by
        exact (div_le_div_iff_of_pos_right (by norm_num)).mpr h
      _ = 1/20 := by norm_num

theorem pyRound2_abs_le (q : ℚ) : |pyRound2 q - q| ≤ 1/200 := by
  have h := pyRoundQ_abs_le (q * 100)
  have hd : pyRound2 q - q = ((pyRoundQ (q * 100) : ℚ) - q * 100) / 100 := by
    unfold pyRound2; ring
  rw [hd, abs_div]
  rw [abs_of_nonneg (by norm_num : (0:ℚ) ≤ 100)]
  calc |(pyRoundQ (q * 100) : ℚ) - q * 100| / 100 ≤ (1/2) / 100 := by
        exact (div_le_div_iff_of_pos_right (by norm_num)).mpr h
      _ = 1/200 := by norm_num

/-! ### USDA nutrition client (`foods/usda_nutrition.py`)

`format_nutrition_info` reads a detail payload's `foodNutrients` list into a
nutrient dictionary; the dictionary is modelled as an `Option`-valued map so
that key presence (needed by the overwrite guard and by the emptiness check)
is observable.  `get_averaged_nutrition_from_top_results` is modelled with the
search response and the per-id detail fetch as explicit oracles.
-/

/-- Nutrient dictionary keys produced by `format_nutrition_info`. -/
inductive NKey where
  | calories | protein | fat | carbs | fiber | sugar
  | calcium | iron | potassium | sodium | vitamin_a | vitamin_c
  deriving DecidableEq, Repr

def NKey.all : List NKey :=
  [.calories, .protein, .fat, .carbs, .fiber, .sugar,
   .calcium, .iron, .potassium, .sodium, .vitamin_a, .vitamin_c]

/-- One entry of a detail payload's `foodNutrients` array:
`nutrient.get("nutrient", {}).get("id")` and `nutrient.get("amount", 0)`. -/
structure FoodNutrient where
  nutrient_id : ℕ
  amount : ℚ
  deriving DecidableEq, Repr

/-- The part of a USDA detail payload read by `format_nutrition_info`. -/
structure FoodData where
  description : String
  fdcId : ℕ
  foodNutrients : List FoodNutrient
  deriving DecidableEq, Repr

/-- Output of `format_nutrition_info`: description, id and the nutrient map. -/
structure NutritionInfo where
  food_description : String
  fdc_id : ℕ
  nutrients : NKey → Option ℚ

/-- The `key_nutrients` id table of `format_nutrition_info`.  Both 1008
(Energy kcal) and 2047 (Energy kJ) map to `calories`. -/
def key_nutrients : ℕ → Option NKey
  | 1008 => some .calories
  | 2047 => some .calories
  | 1003 => some .protein
  | 1004 => some .fat
  | 1005 => some .carbs
  | 1079 => some .fiber
  | 2000 => some .sugar
  | 1087 => some .calcium
  | 1089 => some .iron
  | 1092 => some .potassium
  | 1093 => some .sodium
  | 1104 => some .vitamin_a
  | 1162 => some .vitamin_c
  | _ => none

/-- One `foodNutrients` entry applied to the nutrient map: kJ amounts are
converted (`round(amount / 4.184, 2)`) and a key already holding a non-zero
value is not overwritten. -/
def formatStep (m : NKey → Option ℚ) (nut : FoodNutrient) : NKey → Option ℚ :=
  match key_nutrients nut.nutrient_id with
  | none => m
  | some k =>
    let amount : ℚ :=
      if nut.nutrient_id = 2047 ∧ 0 < nut.amount then pyRound2 (nut.amount / (4184/1000))
      else nut.amount
    if (m k).isNone ∨ m k = some 0 then
      fun k2 => if k2 = k then some amount else m k2
    else m

/-- `format_nutrition_info(food_data)`: `None` maps to `none`, otherwise the
`foodNutrients` list is folded into the nutrient dictionary. -/
def format_nutrition_info (food_data : Option FoodData) : Option NutritionInfo :=
  match food_data with
  | none => none
  | some d =>
    some { food_description := d.description
           fdc_id := d.fdcId
           nutrients := d.foodNutrients.foldl formatStep (fun _ => none) }

/-- Truthiness of the `nutrients` dict: empty iff no key was ever written. -/
def nutrientsEmpty (m : NKey → Option ℚ) : Bool :=
  NKey.all.all fun k => (m k).isNone

/-- One element of the search response's `foods` array; `food.get("fdcId")`
may be missing (and `0` is falsy in `if not fdc_id`). -/
structure SearchFood where
  fdcId : Option ℕ
  deriving DecidableEq, Repr

/-- One element of `valid_nutrition_data`. -/
structure ValidData where
  description : String
  fdc_id : ℕ
  nutrients : NKey → Option ℚ

/-- The averaged-nutrition keys (`avg_nutrients` dictionary). -/
inductive AvgKey where
  | calories | protein | fat | carbs | fiber | sugar | sodium
  deriving DecidableEq, Repr

/-- The `nutrient_mapping` table (our key → USDA-format key). -/
def avgKeyToNKey : AvgKey → NKey
  | .calories => .calories
  | .protein => .protein
  | .fat => .fat
  | .carbs => .carbs
  | .fiber => .fiber
  | .sugar => .sugar
  | .sodium => .sodium

/-- `nutrients.get(usda_key, 0)` on a valid record. -/
def ValidData.val (v : ValidData) (k : AvgKey) : ℚ :=
  (v.nutrients (avgKeyToNKey k)).getD 0

/-- The loop of `get_averaged_nutrition_from_top_results` that builds
`valid_nutrition_data`: for each of the top `top_count` search hits, skip
missing/zero ids, fetch and format the detail payload, skip empty nutrient
dicts, and keep the record iff one of calories/protein/fat/carbs is
positive (`has_meaningful_data`). -/
def validRecords (foods : List SearchFood) (get_details : ℕ → Option FoodData)
    (top_count : ℕ) : List ValidData :=
  (foods.take top_count).foldl
    (fun acc food =>
      match food.fdcId with
      | none => acc
      | some 0 => acc
      | some fdc =>
        match format_nutrition_info (get_details fdc) with
        | none => acc
        | some info =>
          if nutrientsEmpty info.nutrients then acc
          else
            let n : NKey → ℚ := fun k => (info.nutrients k).getD 0
            if 0 < n .calories ∨ 0 < n .protein ∨ 0 < n .fat ∨ 0 < n .carbs then
              acc ++ [{ description := info.food_description
                        fdc_id := info.fdc_id
                        nutrients := info.nutrients }]
            else acc)
    []

/-- Result dictionary of `get_averaged_nutrition_from_top_results`. -/
structure AveragedResult where
  search_term : String
  valid_results_count : ℕ
  total_results_found : ℕ
  averaged_nutrition : AvgKey → ℚ
  source_foods : List (String × ℕ)

/-- `get_averaged_nutrition_from_top_results(usda_api, search_term, top_count)`,
with the search response (`None`, or its `foods` array) and the detail fetch
as oracles.  `None`/empty search and zero valid candidates return `none`;
otherwise each nutrient is summed over the candidates reporting a positive
value for it (`if value and value > 0`) and divided by that count, rounded to
one decimal, nutrients with no contributing candidate being reported as 0. -/
def get_averaged_nutrition_from_top_results
    (search_foods : Option (List SearchFood)) (get_details : ℕ → Option FoodData)
    (search_term : String) (top_count : ℕ) : Option AveragedResult :=
  match search_foods with
  | none => none
  | some foods =>
    if foods.isEmpty then none
    else
      let valid := validRecords foods get_details top_count
      if valid.isEmpty then none
      else
        let totals : AvgKey → ℚ := fun k =>
          valid.foldl (fun s v => if 0 < v.val k then s + v.val k else s) 0
        let counts : AvgKey → ℕ := fun k =>
          valid.foldl (fun c v => if 0 < v.val k then c + 1 else c) 0
        some { search_term := search_term
               valid_results_count := valid.length
               total_results_found := foods.length
               averaged_nutrition := fun k =>
                 if 0 < counts k then pyRound1 (totals k / (counts k : ℚ)) else 0
               source_foods := (valid.take 5).map fun v => (v.description, v.fdc_id) }

/-- The contributing values for nutrient `k`: positive reported values over
the valid candidates. -/
def contributors (foods : List SearchFood) (get_details : ℕ → Option FoodData)
    (top_count : ℕ) (k : AvgKey) : List ℚ :=
  ((validRecords foods get_details top_count).map fun v => v.val k).filter fun x =>
    decide (0 < x)

/-- `has_meaningful_data` of the averager: a positive value for at least one
of calories, protein, fat, carbs (missing keys read as 0). -/
def has_meaningful_data (m : NKey → Option ℚ) : Prop :=
  0 < (m .calories).getD 0 ∨ 0 < (m .protein).getD 0 ∨
  0 < (m .fat).getD 0 ∨ 0 < (m .carbs).getD 0

instance (m : NKey → Option ℚ) : Decidable (has_meaningful_data m) := by
  unfold has_meaningful_data; infer_instance

/-- The candidate records the averager's loop fetches and formats, before the
`has_meaningful_data` filter (records with empty nutrient dicts included). -/
def candidateRecords (foods : List SearchFood) (get_details : ℕ → Option FoodData)
    (top_count : ℕ) : List ValidData :=
  (foods.take top_count).filterMap fun food =>
    match food.fdcId with
    | none => none
    | some 0 => none
    | some fdc =>
      (format_nutrition_info (get_details fdc)).map fun info =>
        { description := info.food_description
          fdc_id := info.fdc_id
          nutrients := info.nutrients }

theorem nutrientsEmpty_not_meaningful (m : NKey → Option ℚ)
    (h : nutrientsEmpty m = true) : ¬ has_meaningful_data m := by
  have hall := List.all_eq_true.mp h
  have hc := hall NKey.calories (by simp [NKey.all])
  have hp := hall NKey.protein (by simp [NKey.all])
  have hf := hall NKey.fat (by simp [NKey.all])
  have hb := hall NKey.carbs (by simp [NKey.all])
  rw [Option.isNone_iff_eq_none] at hc hp hf hb
  simp [has_meaningful_data, hc, hp, hf, hb]

theorem validRecords_foldl_append (l : List SearchFood) (gd : ℕ → Option FoodData)
    (acc : List ValidData) :
    l.foldl
      (fun acc food =>
        match food.fdcId with
        | none => acc
        | some 0 => acc
        | some fdc =>
          match format_nutrition_info (gd fdc) with
          | none => acc
          | some info =>
            if nutrientsEmpty info.nutrients then acc
            else
              let n : NKey → ℚ := fun k => (info.nutrients k).getD 0
              if 0 < n .calories ∨ 0 < n .protein ∨ 0 < n .fat ∨ 0 < n .carbs then
                acc ++ [{ description := info.food_description
                          fdc_id := info.fdc_id
                          nutrients := info.nutrients }]
              else acc)
      acc
    = acc ++ (l.filterMap fun food =>
        match food.fdcId with
        | none => none
        | some 0 => none
        | some fdc =>
          (format_nutrition_info (gd fdc)).map fun info =>
            { description := info.food_description
              fdc_id := info.fdc_id
              nutrients := info.nutrients }).filter
        fun v => decide (has_meaningful_data v.nutrients) := by
  induction l generalizing acc with
  | nil => simp
  | cons f t ih =>
    rcases hf : f.fdcId with _ | fdc
    · simp only [List.foldl_cons, List.filterMap_cons, hf]
      exact ih acc
    · rcases fdc with _ | m
      · simp only [List.foldl_cons, List.filterMap_cons, hf]
        exact ih acc
      · rcases hi : format_nutrition_info (gd (m + 1)) with _ | info
        · simp only [List.foldl_cons, List.filterMap_cons, hf, hi]
          exact ih acc
        · simp only [List.foldl_cons, List.filterMap_cons, hf, hi, Option.map_some']
          by_cases hemp : nutrientsEmpty info.nutrients
          · have hnm : ¬ has_meaningful_data info.nutrients :=
              nutrientsEmpty_not_meaningful _ hemp
            simpa [hemp, hnm] using ih acc
          · by_cases hm : has_meaningful_data info.nutrients
            · have hm2 := hm
              unfold has_meaningful_data at hm2
              have h3 := ih (acc ++ [{ description := info.food_description
                                       fdc_id := info.fdc_id
                                       nutrients := info.nutrients }])
              rw [List.append_assoc, List.singleton_append] at h3
              simpa [hemp, hm, hm2] using h3
            · have hm2 := hm
              unfold has_meaningful_data at hm2
              simpa [hemp, hm, hm2] using ih acc

theorem validRecords_eq_filter (foods : List SearchFood) (gd : ℕ → Option FoodData)
    (n : ℕ) :
    validRecords foods gd n
      = (candidateRecords foods gd n).filter fun v => decide (has_meaningful_data v.nutrients) := by
  unfold validRecords candidateRecords
  rw [validRecords_foldl_append]
  simp

theorem sum_foldl_positive (l : List ValidData) (k : AvgKey) (s : ℚ) :
    l.foldl (fun s v => if 0 < v.val k then s + v.val k else s) s
      = s + (((l.map fun v => v.val k).filter fun x => decide (0 < x)).sum) := by
  induction l generalizing s with
  | nil => simp
  | cons v t ih =>
    simp only [List.foldl_cons, List.map_cons, List.filter_cons]
    by_cases h : 0 < v.val k
    · rw [if_pos h, ih]
      simp [h]
      ring
    · rw [if_neg h, ih]
      simp [h]

theorem count_foldl_positive (l : List ValidData) (k : AvgKey) (c : ℕ) :
    l.foldl (fun c v => if 0 < v.val k then c + 1 else c) c
      = c + (((l.map fun v => v.val k).filter fun x => decide (0 < x)).length) := by
  induction l generalizing c with
  | nil => simp
  | cons v t ih =>
    simp only [List.foldl_cons, List.map_cons, List.filter_cons]
    by_cases h : 0 < v.val k
    · rw [if_pos h, ih]
      simp [h]
      omega
    · rw [if_neg h, ih]
      simp [h]

/-- Scenario A search response: three hits with ids 1, 2, 3. -/
def appleSearch : Option (List SearchFood) :=
  some [{ fdcId := some 1 }, { fdcId := some 2 }, { fdcId := some 3 }]

/-- Scenario A detail payloads: calories 52/48/54, fiber 2.4/2.6 on the
first two records only. -/
def appleDetails : ℕ → Option FoodData
  | 1 => some { description := "Apple one", fdcId := 1,
                foodNutrients := [{ nutrient_id := 1008, amount := 52 },
                                  { nutrient_id := 1079, amount := 12/5 }] }
  | 2 => some { description := "Apple two", fdcId := 2,
                foodNutrients := [{ nutrient_id := 1008, amount := 48 },
                                  { nutrient_id := 1079, amount := 13/5 }] }
  | 3 => some { description := "Apple three", fdcId := 3,
                foodNutrients := [{ nutrient_id := 1008, amount := 54 }] }
  | _ => none

/-- C1: the top-N averager computes each nutrient key independently: the
reported average for a nutrient equals the sum of that nutrient's positive
values over the valid candidates reporting a positive value for that
specific nutrient, divided by the count of such candidates (rounded to one
decimal as the source does), not by the total valid-candidate count; on the
Scenario A inputs (calories 52/48/54 on three records, fiber 2.4/2.6 on
two) it yields calories 51.3 (within rounding tolerance of 154/3 ≈ 51.33),
fiber 2.5, and valid_results_count 3. -/
theorem C1_per_nutrient_independent_average :
    (∀ (sf : Option (List SearchFood)) (gd : ℕ → Option FoodData) (t : String) (n : ℕ)
        (k : AvgKey),
      ((get_averaged_nutrition_from_top_results sf gd t n).map
          fun r => r.averaged_nutrition k)
        = ((get_averaged_nutrition_from_top_results sf gd t n).map fun _ =>
            if (contributors (sf.getD []) gd n k).isEmpty then (0:ℚ)
            else pyRound1 ((contributors (sf.getD []) gd n k).sum
              / ((contributors (sf.getD []) gd n k).length : ℚ))))
    ∧ ((get_averaged_nutrition_from_top_results appleSearch appleDetails "apple" 10).map
        fun r => (r.averaged_nutrition .calories, r.averaged_nutrition .fiber,
                  r.valid_results_count))
        = some (513/10, 5/2, 3)
    ∧ |(513/10 : ℚ) - 154/3| ≤ 1/20 := by
  refine ⟨?_, ?_, by rw [abs_le]; constructor <;> norm_num⟩
  case refine_2 =>
    set_option maxRecDepth 4000 in
    with_unfolding_all rfl
  intro sf gd t n k
  cases sf with
  | none => rfl
  | some foods =>
    simp only [get_averaged_nutrition_from_top_results, Option.getD_some]
    by_cases he : foods.isEmpty
    · simp [he]
    · simp only [he, Bool.false_eq_true, if_false]
      by_cases hv : (validRecords foods gd n).isEmpty
      · simp [hv]
      · simp only [hv, Bool.false_eq_true, if_false, Option.map_some']
        rw [Option.some_inj]
        rw [sum_foldl_positive, count_foldl_positive]
        simp only [Nat.zero_add, zero_add]
        unfold contributors
        by_cases hc :
            (((validRecords foods gd n).map fun v => v.val k).filter
              fun x => decide (0 < x)).isEmpty
        · rw [List.isEmpty_iff] at hc
          simp [hc]
        · rw [List.isEmpty_iff] at hc
          have hlen : 0 < (((validRecords foods gd n).map fun v => v.val k).filter
              fun x => decide (0 < x)).length := List.length_pos.mpr hc
          rw [if_pos hlen]
          simp [List.isEmpty_iff, hc]

/-- C5: a database record counts as valid exactly when it reports a positive
value for at least one of calories, protein, fat, carbs; the averager's
result is the failure value `none` exactly when the search fails/is empty or
zero candidates are valid, so a failure is distinguishable from a successful
result averaging to zero; on success `valid_results_count` is the number of
valid candidates and is positive. -/
theorem C5_validity_criterion_and_failure :
    (∀ (foods : List SearchFood) (gd : ℕ → Option FoodData) (n : ℕ),
      validRecords foods gd n
        = (candidateRecords foods gd n).filter fun v => decide (has_meaningful_data v.nutrients))
    ∧ (∀ (sf : Option (List SearchFood)) (gd : ℕ → Option FoodData) (t : String) (n : ℕ),
      get_averaged_nutrition_from_top_results sf gd t n = none
        ↔ sf = none ∨ (sf.getD []).isEmpty = true
          ∨ (validRecords (sf.getD []) gd n).isEmpty = true)
    ∧ (∀ (sf : Option (List SearchFood)) (gd : ℕ → Option FoodData) (t : String) (n : ℕ),
      ((get_averaged_nutrition_from_top_results sf gd t n).map fun r => r.valid_results_count)
        = ((get_averaged_nutrition_from_top_results sf gd t n).map fun _ =>
            (validRecords (sf.getD []) gd n).length))
    ∧ (∀ (sf : Option (List SearchFood)) (gd : ℕ → Option FoodData) (t : String) (n : ℕ),
      ((get_averaged_nutrition_from_top_results sf gd t n).all
        fun r => decide (0 < r.valid_results_count)) = true) := by
  refine ⟨validRecords_eq_filter, ?_, ?_, ?_⟩
  · intro sf gd t n
    cases sf with
    | none => simp [get_averaged_nutrition_from_top_results]
    | some foods =>
      simp only [get_averaged_nutrition_from_top_results, Option.getD_some]
      by_cases he : foods.isEmpty
      · simp [he]
      · simp only [he, Bool.false_eq_true, if_false]
        by_cases hv : (validRecords foods gd n).isEmpty
        · simp [hv]
        · simp [hv]
  · intro sf gd t n
    cases sf with
    | none => rfl
    | some foods =>
      simp only [get_averaged_nutrition_from_top_results, Option.getD_some]
      by_cases he : foods.isEmpty
      · simp [he]
      · simp only [he, Bool.false_eq_true, if_false]
        by_cases hv : (validRecords foods gd n).isEmpty
        · simp [hv]
        · simp [hv]
  · intro sf gd t n
    cases sf with
    | none => rfl
    | some foods =>
      simp only [get_averaged_nutrition_from_top_results]
      by_cases he : foods.isEmpty
      · simp [he]
      · simp only [he, Bool.false_eq_true, if_false]
        by_cases hv : (validRecords foods gd n).isEmpty
        · simp [hv]
        · simp only [hv, Bool.false_eq_true, if_false, Option.all_some]
          rw [decide_eq_true_eq]
          rw [List.isEmpty_iff] at hv
          exact List.length_pos.mpr hv

/-- C8: energy reported in kilojoules (nutrient id 2047) is converted to
kilocalories by dividing by 4.184 (and rounding to two decimals as the
source does, within 1/200 of the exact quotient); when a record carries both
energy forms, the first populated (non-zero) one is kept — a later form never
overwrites a non-zero earlier one and the two are never summed — while a
zero first form is replaced by the populated one. -/
theorem C8_kilojoule_energy_conversion :
    ∀ (desc : String) (fdc : ℕ) (a b : ℚ), 0 < a → 0 < b →
      pyRound2 (b / (4184/1000)) ≠ 0 →
      ((format_nutrition_info (some ⟨desc, fdc, [⟨2047, b⟩]⟩)).map
            fun i => i.nutrients .calories) = some (some (pyRound2 (b / (4184/1000))))
      ∧ |pyRound2 (b / (4184/1000)) - b / (4184/1000)| ≤ 1/200
      ∧ ((format_nutrition_info (some ⟨desc, fdc, [⟨1008, a⟩, ⟨2047, b⟩]⟩)).map
            fun i => i.nutrients .calories) = some (some a)
      ∧ ((format_nutrition_info (some ⟨desc, fdc, [⟨2047, b⟩, ⟨1008, a⟩]⟩)).map
            fun i => i.nutrients .calories) = some (some (pyRound2 (b / (4184/1000))))
      ∧ ((format_nutrition_info (some ⟨desc, fdc, [⟨1008, 0⟩, ⟨2047, b⟩]⟩)).map
            fun i => i.nutrients .calories) = some (some (pyRound2 (b / (4184/1000)))) := by
  intro desc fdc a b ha hb hbr
  have h2047 : key_nutrients 2047 = some NKey.calories := rfl
  have h1008 : key_nutrients 1008 = some NKey.calories := rfl
  refine ⟨?_, pyRound2_abs_le _, ?_, ?_, ?_⟩
  · simp [format_nutrition_info, formatStep, h2047, hb]
  · simp [format_nutrition_info, formatStep, h2047, h1008, hb, ha.ne']
  · simp [format_nutrition_info, formatStep, h2047, h1008, hb, hbr]
  · simp [format_nutrition_info, formatStep, h2047, h1008, hb]

/-- Witness for C8 at concrete energies: a record reporting 218 kJ yields
calories `round(218 / 4.184, 2) = 52.1`; a record reporting 52 kcal before
218 kJ keeps 52. -/
theorem C8_kilojoule_energy_conversion_witness :
    ((format_nutrition_info (some ⟨"energy", 9, [⟨2047, 218⟩]⟩)).map
          fun i => i.nutrients .calories) = some (some (521/10))
    ∧ ((format_nutrition_info (some ⟨"energy", 9, [⟨1008, 52⟩, ⟨2047, 218⟩]⟩)).map
          fun i => i.nutrients .calories) = some (some 52) := by
  have h := C8_kilojoule_energy_conversion "energy" 9 52 218 (by norm_num) (by norm_num)
    (by with_unfolding_all decide)
  exact ⟨h.1.trans (by with_unfolding_all rfl), h.2.2.1⟩

/-! ### Rate-limited multi-key chat client (`calorie_tracker/openai_service.py`)

`chat_completion` is embedded as a loop over the remaining attempts; the HTTP
layer is an oracle from the attempt number to an outcome.  A trace of request,
rotation and backoff-sleep events is collected so that the retry policy is
observable. -/

/-- The observable outcome of one HTTP POST from the retry loop's view:
a status code, or one of the three caught exception classes. -/
inductive HttpOutcome where
  | status (code : ℕ)
  | timeout
  | clientError
  | otherError
  deriving DecidableEq, Repr

/-- Events recorded by the embedded retry loop. -/
inductive RetryEvent where
  | request (keyIdx : ℕ)
  | rotate (newIdx : ℕ)
  | backoff (seconds : ℕ)
  deriving DecidableEq, Repr

/-- Result dictionary of `chat_completion` (`data`/`usage` omitted). -/
structure ChatResult where
  success : Bool
  error : Option String
  attempts : Option ℕ
  deriving DecidableEq, Repr

/-- `_rotate_api_key`: `(index + 1) % len(api_keys)` over a pool of `n` keys. -/
def rotate_api_key (idx n : ℕ) : ℕ := (idx + 1) % n

/-- The `for attempt in range(max_retries)` loop of `chat_completion`:
status 429 and 401 rotate the key and retry immediately; any other non-2xx
status raises and is caught as a client error; timeouts and errors sleep
`2 ^ attempt` seconds unless this was the last attempt; a 2xx returns
success; falling out of the loop returns the max-retries failure. -/
def chatLoop (env : ℕ → HttpOutcome) (n maxRetries : ℕ) :
    ℕ → ℕ → List RetryEvent → ChatResult × ℕ × List RetryEvent
  | 0, idx, tr =>
    ({ success := false, error := some "Maximum retries exceeded",
       attempts := some maxRetries }, idx, tr)
  | remaining + 1, idx, tr =>
    match env (maxRetries - (remaining + 1)) with
    | .status 429 =>
      chatLoop env n maxRetries remaining (rotate_api_key idx n)
        (tr ++ [.request idx] ++ [.rotate (rotate_api_key idx n)])
    | .status 401 =>
      chatLoop env n maxRetries remaining (rotate_api_key idx n)
        (tr ++ [.request idx] ++ [.rotate (rotate_api_key idx n)])
    | .status c =>
      if c < 400 then
        ({ success := true, error := none, attempts := none }, idx, tr ++ [.request idx])
      else if maxRetries - (remaining + 1) < maxRetries - 1 then
        chatLoop env n maxRetries remaining idx
          (tr ++ [.request idx] ++ [.backoff (2 ^ (maxRetries - (remaining + 1)))])
      else chatLoop env n maxRetries remaining idx (tr ++ [.request idx])
    | .timeout =>
      if maxRetries - (remaining + 1) < maxRetries - 1 then
        chatLoop env n maxRetries remaining idx
          (tr ++ [.request idx] ++ [.backoff (2 ^ (maxRetries - (remaining + 1)))])
      else chatLoop env n maxRetries remaining idx (tr ++ [.request idx])
    | .clientError =>
      if maxRetries - (remaining + 1) < maxRetries - 1 then
        chatLoop env n maxRetries remaining idx
          (tr ++ [.request idx] ++ [.backoff (2 ^ (maxRetries - (remaining + 1)))])
      else chatLoop env n maxRetries remaining idx (tr ++ [.request idx])
    | .otherError =>
      if maxRetries - (remaining + 1) < maxRetries - 1 then
        chatLoop env n maxRetries remaining idx
          (tr ++ [.request idx] ++ [.backoff (2 ^ (maxRetries - (remaining + 1)))])
      else chatLoop env n maxRetries remaining idx (tr ++ [.request idx])

/-- `chat_completion(...)` with a key pool of size `n`, current key index
`idx0` and at most `max_retries` attempts; returns the result, the final key
index, and the event trace. -/
def chat_completion (env : ℕ → HttpOutcome) (n maxRetries idx0 : ℕ) :
    ChatResult × ℕ × List RetryEvent :=
  chatLoop env n maxRetries maxRetries idx0 []

/-- Number of HTTP requests recorded in a trace. -/
def countRequests (tr : List RetryEvent) : ℕ :=
  tr.countP fun e => match e with | .request _ => true | _ => false

/-- Number of backoff sleeps recorded in a trace. -/
def countBackoffs (tr : List RetryEvent) : ℕ :=
  tr.countP fun e => match e with | .backoff _ => true | _ => false

theorem countRequests_append (a b : List RetryEvent) :
    countRequests (a ++ b) = countRequests a + countRequests b :=
  List.countP_append _ _ _

theorem countBackoffs_append (a b : List RetryEvent) :
    countBackoffs (a ++ b) = countBackoffs a + countBackoffs b :=
  List.countP_append _ _ _

theorem countRequests_req (tr : List RetryEvent) (i : ℕ) :
    countRequests (tr ++ [.request i]) = countRequests tr + 1 := by
  simp [countRequests, List.countP_append, List.countP_cons]

theorem countRequests_rot (tr : List RetryEvent) (i : ℕ) :
    countRequests (tr ++ [.rotate i]) = countRequests tr := by
  simp [countRequests, List.countP_append, List.countP_cons]

theorem countRequests_back (tr : List RetryEvent) (s : ℕ) :
    countRequests (tr ++ [.backoff s]) = countRequests tr := by
  simp [countRequests, List.countP_append, List.countP_cons]

theorem countBackoffs_req (tr : List RetryEvent) (i : ℕ) :
    countBackoffs (tr ++ [.request i]) = countBackoffs tr := by
  simp [countBackoffs, List.countP_append, List.countP_cons]

theorem countBackoffs_rot (tr : List RetryEvent) (i : ℕ) :
    countBackoffs (tr ++ [.rotate i]) = countBackoffs tr := by
  simp [countBackoffs, List.countP_append, List.countP_cons]

theorem countBackoffs_back (tr : List RetryEvent) (s : ℕ) :
    countBackoffs (tr ++ [.backoff s]) = countBackoffs tr + 1 := by
  simp [countBackoffs, List.countP_append, List.countP_cons]

theorem chatLoop_requests_le (env : ℕ → HttpOutcome) (n m : ℕ) :
    ∀ (r idx : ℕ) (tr : List RetryEvent),
      countRequests (chatLoop env n m r idx tr).2.2 ≤ countRequests tr + r := by
  intro r
  induction r with
  | zero => intro idx tr; simp [chatLoop]
  | succ r ih =>
    intro idx tr
    rw [chatLoop]
    split
    · refine le_trans (ih _ _) ?_
      rw [countRequests_rot, countRequests_req]; omega
    · refine le_trans (ih _ _) ?_
      rw [countRequests_rot, countRequests_req]; omega
    · split_ifs
      · simp only [countRequests_req]; omega
      · refine le_trans (ih _ _) ?_
        rw [countRequests_back, countRequests_req]; omega
      · refine le_trans (ih _ _) ?_
        rw [countRequests_req]; omega
    · split_ifs
      · refine le_trans (ih _ _) ?_
        rw [countRequests_back, countRequests_req]; omega
      · refine le_trans (ih _ _) ?_
        rw [countRequests_req]; omega
    · split_ifs
      · refine le_trans (ih _ _) ?_
        rw [countRequests_back, countRequests_req]; omega
      · refine le_trans (ih _ _) ?_
        rw [countRequests_req]; omega
    · split_ifs
      · refine le_trans (ih _ _) ?_
        rw [countRequests_back, countRequests_req]; omega
      · refine le_trans (ih _ _) ?_
        rw [countRequests_req]; omega

theorem chatLoop_result_shape (env : ℕ → HttpOutcome) (n m : ℕ) :
    ∀ (r idx : ℕ) (tr : List RetryEvent),
      (chatLoop env n m r idx tr).1
          = { success := true, error := none, attempts := none }
        ∨ (chatLoop env n m r idx tr).1
          = { success := false, error := some "Maximum retries exceeded",
              attempts := some m } := by
  intro r
  induction r with
  | zero => intro idx tr; right; rfl
  | succ r ih =>
    intro idx tr
    rw [chatLoop]
    split
    · exact ih _ _
    · exact ih _ _
    · split_ifs
      · left; rfl
      · exact ih _ _
      · exact ih _ _
    · split_ifs
      · exact ih _ _
      · exact ih _ _
    · split_ifs
      · exact ih _ _
      · exact ih _ _
    · split_ifs
      · exact ih _ _
      · exact ih _ _

theorem chatLoop_rate_limited_all (env : ℕ → HttpOutcome) (n m : ℕ)
    (henv : ∀ a, env a = .status 429 ∨ env a = .status 401) :
    ∀ (r idx : ℕ) (tr : List RetryEvent),
      countBackoffs (chatLoop env n m r idx tr).2.2 = countBackoffs tr
      ∧ (chatLoop env n m r idx tr).1
          = { success := false, error := some "Maximum retries exceeded",
              attempts := some m } := by
  intro r
  induction r with
  | zero => intro idx tr; exact ⟨rfl, rfl⟩
  | succ r ih =>
    intro idx tr
    rw [chatLoop]
    rcases henv (m - (r + 1)) with h | h <;>
      rw [h] <;>
      refine ⟨?_, (ih _ _).2⟩ <;>
      rw [(ih _ _).1, countBackoffs_rot, countBackoffs_req]

/-- C3: for every credential pool of size at least 1 and every call: a 429 or
401 response rotates to the next credential (cyclically, index modulo pool
size) and retries immediately with no backoff sleep; the number of HTTP
attempts never exceeds `max_retries`, so the call terminates; the result is
either a success or the max-retries failure carrying the error message and
the attempt count, and when every attempt is rate-limited/unauthorized the
failure is returned with no backoff sleeps at all. -/
theorem C3_rotation_and_bounded_retries :
    (∀ (env : ℕ → HttpOutcome) (n maxRetries idx0 : ℕ),
      countRequests (chat_completion env n maxRetries idx0).2.2 ≤ maxRetries)
    ∧ (∀ (env : ℕ → HttpOutcome) (n maxRetries idx0 : ℕ),
      (chat_completion env n maxRetries idx0).1
          = { success := true, error := none, attempts := none }
        ∨ (chat_completion env n maxRetries idx0).1
          = { success := false, error := some "Maximum retries exceeded",
              attempts := some maxRetries })
    ∧ (∀ (idx n : ℕ), 0 < n →
        rotate_api_key idx n = (idx + 1) % n ∧ rotate_api_key idx n < n)
    ∧ (∀ (env : ℕ → HttpOutcome) (n m r idx : ℕ) (tr : List RetryEvent),
        env (m - (r + 1)) = .status 429 →
        chatLoop env n m (r + 1) idx tr
          = chatLoop env n m r (rotate_api_key idx n)
              (tr ++ [.request idx] ++ [.rotate (rotate_api_key idx n)]))
    ∧ (∀ (env : ℕ → HttpOutcome) (n m r idx : ℕ) (tr : List RetryEvent),
        env (m - (r + 1)) = .status 401 →
        chatLoop env n m (r + 1) idx tr
          = chatLoop env n m r (rotate_api_key idx n)
              (tr ++ [.request idx] ++ [.rotate (rotate_api_key idx n)]))
    ∧ (∀ (env : ℕ → HttpOutcome) (n maxRetries idx0 : ℕ),
        (∀ a, env a = .status 429 ∨ env a = .status 401) →
        countBackoffs (chat_completion env n maxRetries idx0).2.2 = 0
        ∧ (chat_completion env n maxRetries idx0).1
            = { success := false, error := some "Maximum retries exceeded",
                attempts := some maxRetries }) := by
  refine ⟨?_, ?_, ?_, ?_, ?_, ?_⟩
  · intro env n maxRetries idx0
    have h := chatLoop_requests_le env n maxRetries maxRetries idx0 []
    simpa [chat_completion, countRequests] using h
  · intro env n maxRetries idx0
    exact chatLoop_result_shape env n maxRetries maxRetries idx0 []
  · intro idx n hn
    exact ⟨rfl, Nat.mod_lt _ hn⟩
  · intro env n m r idx tr h
    rw [chatLoop, h]
  · intro env n m r idx tr h
    rw [chatLoop, h]
  · intro env n maxRetries idx0 henv
    have h := chatLoop_rate_limited_all env n maxRetries henv maxRetries idx0 []
    exact ⟨by simpa [chat_completion, countBackoffs] using h.1, h.2⟩

/-- Witness for C3 at the pool-of-size-1 boundary: three attempts all
answered 429 rotate back to the same single key each time and terminate with
the max-retries failure after exactly 3 requests and no backoff sleep. -/
theorem C3_rotation_and_bounded_retries_witness :
    (chat_completion (fun _ => .status 429) 1 3 0).1
        = { success := false, error := some "Maximum retries exceeded", attempts := some 3 }
    ∧ countBackoffs (chat_completion (fun _ => .status 429) 1 3 0).2.2 = 0
    ∧ countRequests (chat_completion (fun _ => .status 429) 1 3 0).2.2 ≤ 3
    ∧ rotate_api_key 0 1 = 0
    ∧ (chat_completion (fun _ => .status 429) 1 3 0).2.2
        = [.request 0, .rotate 0, .request 0, .rotate 0, .request 0, .rotate 0] := by
  have hall : ∀ a : ℕ, (fun _ : ℕ => HttpOutcome.status 429) a = HttpOutcome.status 429
      ∨ (fun _ : ℕ => HttpOutcome.status 429) a = HttpOutcome.status 401 :=
    fun _ => Or.inl rfl
  have h6 := C3_rotation_and_bounded_retries.2.2.2.2.2 (fun _ => .status 429) 1 3 0 hall
  have h1 := C3_rotation_and_bounded_retries.1 (fun _ => .status 429) 1 3 0
  have h3 := C3_rotation_and_bounded_retries.2.2.1 0 1 (by norm_num)
  exact ⟨h6.2, h6.1, h1, h3.1.trans (by decide), by decide⟩

/-! ### Function-calling loop (`openai_service.function_calling_completion`,
`two_stage_analyzer._process_function_calling_result`)

The model's replies are an explicit script (a list of chat outcomes consumed
one per completion call); tool execution and the JSON decoding of a final
message are oracles.  The `\x7b.*\x7d` regex scan used on final messages is
embedded concretely over strings. -/

/-- A message returned by the model: a function call or a plain text. -/
inductive ModelMsg where
  | funcCall (name : String) (arguments : String)
  | text (content : String)
  deriving DecidableEq, Repr

/-- One scripted outcome of `chat_completion` inside the loop: a failed call
or a model message. -/
inductive ChatScriptOutcome where
  | fail (error : String)
  | msg (m : ModelMsg)
  deriving DecidableEq, Repr

/-- Result dictionary of `function_calling_completion`; absent keys of the
Python dicts are `none`/`false` (they are only read through `.get`). -/
structure FCResult where
  success : Bool
  error : Option String
  needs_function_execution : Bool
  final_response : Option String
  current_function_call : Option (String × String)
  function_calls : List (String × String)
  deriving DecidableEq, Repr

/-- `function_calling_completion(messages, functions, ...)`: with
`max_iterations = 0` the loop body never runs and the max-iterations failure
is returned; otherwise the first completion's message decides the result —
every arm of the loop body returns, so the loop never reaches a second
iteration.  Returns the result and the unconsumed script. -/
def function_calling_completion (script : List ChatScriptOutcome)
    (max_iterations : ℕ) : FCResult × List ChatScriptOutcome :=
  match max_iterations with
  | 0 =>
    ({ success := false, error := some "Maximum function calling iterations exceeded",
       needs_function_execution := false, final_response := none,
       current_function_call := none, function_calls := [] }, script)
  | _ + 1 =>
    match script with
    | [] =>
      ({ success := false, error := some "chat completion failed",
         needs_function_execution := false, final_response := none,
         current_function_call := none, function_calls := [] }, [])
    | .fail e :: rest =>
      ({ success := false, error := some e,
         needs_function_execution := false, final_response := none,
         current_function_call := none, function_calls := [] }, rest)
    | .msg (.funcCall f a) :: rest =>
      ({ success := true, error := none,
         needs_function_execution := true, final_response := none,
         current_function_call := some (f, a), function_calls := [(f, a)] }, rest)
    | .msg (.text c) :: rest =>
      ({ success := true, error := none,
         needs_function_execution := false, final_response := some c,
         current_function_call := none, function_calls := [] }, rest)

/-- The greedy `re.search` for a brace-delimited block with DOTALL: matches
from the first opening brace to the last closing brace when that span is
non-empty. -/
def extractBraced (s : String) : Option String :=
  match s.data.findIdx? (fun c => c = '\x7b') with
  | none => none
  | some i =>
    match s.data.reverse.findIdx? (fun c => c = '\x7d') with
    | none => none
    | some jr =>
      let j := s.data.length - 1 - jr
      if i < j then some (String.mk ((s.data.drop i).take (j - i + 1)))
      else none

/-- `continue_function_conversation`: the executed function's result message
is appended to the conversation (absorbed into the script oracle) and the
completion loop is re-entered with the given `max_iterations`. -/
def continue_function_conversation (script : List ChatScriptOutcome)
    (max_iterations : ℕ) : FCResult × List ChatScriptOutcome :=
  function_calling_completion script max_iterations

/-- Keys of a Stage 2 `nutrition_per_100g` payload. -/
inductive PKey where
  | calories | protein_g | fat_g | carbs_g | fiber_g
  deriving DecidableEq, Repr

/-- The part of a parsed Stage 2 `nutrition_data` payload read downstream:
the optional `nutrition_per_100g` mapping (read through `.get(k, 0)`) and the
opaque `usda_match` payload. -/
structure NutritionData where
  nutrition_per_100g : Option (PKey → ℚ)
  usda_match : Option String

/-- One food of the Stage 1 `foods_identified` list, with the fields read by
Stage 2 and by the combiner (missing keys are read through `.get`). -/
structure FoodItem where
  name : String
  estimated_weight_grams : ℚ
  cooking_method : String
  confidence : ℚ
  deriving DecidableEq, Repr

/-- The per-food result dictionary produced by Stage 2
(`lookup_nutrition_for_food` / `_process_function_calling_result`). -/
structure LookupResult where
  success : Bool
  food_item : FoodItem
  nutrition_data : Option NutritionData
  raw_response : Option String
  note : Option String
  error : Option String
  agent_id : ℕ

/-- The no-function-execution branch of `_process_function_calling_result`:
scan `final_response` (default empty) for a brace-delimited block, decode it
with the JSON oracle, and degrade to a success carrying only a note when the
scan or the decode fails. -/
def processFinal (parseND : String → Option NutritionData) (food : FoodItem)
    (agent_id : ℕ) (result : FCResult) : LookupResult :=
  match extractBraced (result.final_response.getD "") with
  | some s =>
    match parseND s with
    | some nd =>
      { success := true, food_item := food, nutrition_data := some nd,
        raw_response := none, note := none, error := none, agent_id := agent_id }
    | none =>
      { success := true, food_item := food, nutrition_data := none,
        raw_response := some (result.final_response.getD ""),
        note := some "Response is not in JSON format", error := none,
        agent_id := agent_id }
  | none =>
    { success := true, food_item := food, nutrition_data := none,
      raw_response := some (result.final_response.getD ""),
      note := some "Could not extract structured JSON", error := none,
      agent_id := agent_id }

/-- `_process_function_calling_result(result, food_item)`: when the result
does not need function execution (also when it is a failure dict, whose
absent `needs_function_execution` key reads as falsy) process it as a final
response; otherwise execute the requested tool and continue the conversation
with `config max_iterations - 1` — the remaining budget is re-read from the
configuration at every recursion level, never threaded down.  `fuel` bounds
the recursion (the caller passes more than the script can consume; `none`
means fuel ran out) and the second component counts tool executions. -/
def process_function_calling_result
    (tools : String → String → String) (parseND : String → Option NutritionData)
    (cfg_max_iterations : ℕ) (food : FoodItem) (agent_id : ℕ) :
    ℕ → FCResult → List ChatScriptOutcome → ℕ → Option (LookupResult × ℕ)
  | 0, _, _, _ => none
  | fuel + 1, result, script, toolCount =>
    if result.needs_function_execution = false then
      some (processFinal parseND food agent_id result, toolCount)
    else
      match result.current_function_call with
      | none => some (processFinal parseND food agent_id result, toolCount)
      | some (fname, fargs) =>
        let _fr := tools fname fargs
        let cr := continue_function_conversation script (cfg_max_iterations - 1)
        process_function_calling_result tools parseND cfg_max_iterations food agent_id
          fuel cr.1 cr.2 (toolCount + 1)

/-- `lookup_nutrition_for_food(food_item)`: start the function-calling
conversation with the stage's configured `max_iterations`, return a failure
dict if the first completion fails, else hand the result to
`_process_function_calling_result`. -/
def lookup_nutrition_for_food
    (tools : String → String → String) (parseND : String → Option NutritionData)
    (cfg_max_iterations : ℕ) (food : FoodItem) (agent_id : ℕ)
    (script : List ChatScriptOutcome) : Option (LookupResult × ℕ) :=
  let r := function_calling_completion script cfg_max_iterations
  if r.1.success = false then
    some ({ success := false, food_item := food, nutrition_data := none,
            raw_response := none, note := none,
            error := some (r.1.error.getD "OpenAI API request failed"),
            agent_id := agent_id }, 0)
  else
    process_function_calling_result tools parseND cfg_max_iterations food agent_id
      (2 * script.length + 2) r.1 r.2 0

/-- A Stage 2 script in which the model requests a tool call seven times and
then answers with plain text containing no JSON object. -/
def fcScript7 : List ChatScriptOutcome :=
  List.replicate 7 (.msg (.funcCall "search_usda_database" "apple")) ++
    [.msg (.text "done without structured payload")]

/-- Tool oracle whose every execution succeeds with an opaque payload. -/
def tools0 : String → String → String := fun _ _ => "ok"

/-- JSON oracle on which every decode fails. -/
def parse0 : String → Option NutritionData := fun _ => none

def foodApple : FoodItem :=
  { name := "apple", estimated_weight_grams := 100, cooking_method := "raw",
    confidence := 95/100 }

/-- C2 (evaluation at the failing inputs): with the default configuration
value 5, a model that requests a tool call seven times drives the loop
through seven tool executions and eight model turns — the recursion re-reads
`max_iterations - 1` from the configuration at every level, so the cap never
binds — and the run ends as a success; and with configuration value 1 the cap
value 0 is actually reached, whose max-iterations failure dict is then routed
through `_process_function_calling_result` and converted into a success with
empty raw response and an unstructured-JSON note, not reported as a failure. -/
theorem C2_iteration_cap_ineffective :
    lookup_nutrition_for_food tools0 parse0 5 foodApple 0 fcScript7
      = some ({ success := true, food_item := foodApple, nutrition_data := none,
                raw_response := some "done without structured payload",
                note := some "Could not extract structured JSON", error := none,
                agent_id := 0 }, 7)
    ∧ lookup_nutrition_for_food tools0 parse0 1 foodApple 0
        [.msg (.funcCall "search_usda_database" "apple")]
      = some ({ success := true, food_item := foodApple, nutrition_data := none,
                raw_response := some "",
                note := some "Could not extract structured JSON", error := none,
                agent_id := 0 }, 1)
    ∧ (function_calling_completion [] 0).1
      = { success := false, error := some "Maximum function calling iterations exceeded",
          needs_function_execution := false, final_response := none,
          current_function_call := none, function_calls := [] } :=
  ⟨rfl, rfl, rfl⟩

/-! ### Combination and summary (`two_stage_analyzer`) -/

/-- The `combined_data` dictionary built for a successfully resolved food. -/
structure CombinedData where
  name : String
  estimated_weight_grams : ℚ
  cooking_method : String
  confidence : ℚ
  usda_match : Option String
  nutrition_per_portion : PKey → ℚ

/-- One element of the `foods_with_nutrition` list. -/
structure CombinedItem where
  original_food : FoodItem
  nutrition_lookup : Option LookupResult
  combined_data : Option CombinedData

/-- The per-food body of `_combine_food_and_nutrition_data`: find the first
nutrition result whose `food_item.name` equals the food's name; the portion
nutrition is `round(per_100g * weight / 100, 1)` per key, and absent
success/`nutrition_data`/`nutrition_per_100g` leave `combined_data` as
`None`. -/
def combineOne (nutrition_results : List LookupResult) (food : FoodItem) : CombinedItem :=
  { original_food := food
    nutrition_lookup := nutrition_results.find? fun r => r.food_item.name == food.name
    combined_data :=
      match nutrition_results.find? fun r => r.food_item.name == food.name with
      | some r =>
        if r.success then
          match r.nutrition_data with
          | some nd =>
            match nd.nutrition_per_100g with
            | some p =>
              some { name := food.name
                     estimated_weight_grams := food.estimated_weight_grams
                     cooking_method := food.cooking_method
                     confidence := food.confidence
                     usda_match := nd.usda_match
                     nutrition_per_portion := fun k =>
                       pyRound1 (p k * (food.estimated_weight_grams / 100)) }
            | none => none
          | none => none
        else none
      | none => none }

/-- `_combine_food_and_nutrition_data(foods, nutrition_results)`: one
combined entry per identified food, in identification order. -/
def combine_food_and_nutrition_data (foods : List FoodItem)
    (results : List LookupResult) : List CombinedItem :=
  foods.map (combineOne results)

/-- A Stage 2 result counted as successful by `_generate_summary`: success
is truthy, `nutrition_data` is present and holds `nutrition_per_100g`. -/
def resolvedB (r : LookupResult) : Bool :=
  r.success &&
    match r.nutrition_data with
    | some nd => nd.nutrition_per_100g.isSome
    | none => false

/-- The loop body of `_generate_summary`: accumulate weight-scaled nutrient
totals and the successful-lookup count. -/
def summaryStep (acc : (PKey → ℚ) × ℕ) (r : LookupResult) : (PKey → ℚ) × ℕ :=
  if r.success then
    match r.nutrition_data with
    | some nd =>
      match nd.nutrition_per_100g with
      | some p =>
        (fun k => acc.1 k + p k * (r.food_item.estimated_weight_grams / 100), acc.2 + 1)
      | none => acc
    | none => acc
  else acc

/-- Python's `f"x:.1f"` on a non-negative rational: round half-even at one
decimal and print integer part, dot, and the tenths digit. -/
def fmtPercent1 (q : ℚ) : String :=
  toString (pyRoundQ (q * 10) / 10) ++ "." ++ toString (pyRoundQ (q * 10) % 10) ++ "%"

/-- The `summary` dictionary of the analysis result. -/
structure Summary where
  total_foods_identified : ℕ
  successful_nutrition_lookups : ℕ
  total_nutrition : PKey → ℚ
  success_rate : String

/-- `_generate_summary(foods, nutrition_results)`: totals over the
successful lookups, rounded to one decimal, and the success rate
`successful/total*100` formatted to one decimal — or the literal "0%" when
no foods were identified. -/
def generate_summary (foods : List FoodItem) (results : List LookupResult) : Summary :=
  let acc := results.foldl summaryStep (fun _ => 0, 0)
  { total_foods_identified := foods.length
    successful_nutrition_lookups := acc.2
    total_nutrition := fun k => pyRound1 (acc.1 k)
    success_rate :=
      if foods.isEmpty then "0%"
      else fmtPercent1 ((acc.2 : ℚ) / (foods.length : ℚ) * 100) }

/-- The weight-scaled per-100g contribution of one result to a total. -/
def contribution (r : LookupResult) (k : PKey) : ℚ :=
  match r.nutrition_data with
  | some nd =>
    match nd.nutrition_per_100g with
    | some p => p k * (r.food_item.estimated_weight_grams / 100)
    | none => 0
  | none => 0

theorem summary_foldl (results : List LookupResult) (acc : (PKey → ℚ) × ℕ) :
    (results.foldl summaryStep acc).2 = acc.2 + results.countP resolvedB
    ∧ ∀ k, (results.foldl summaryStep acc).1 k
        = acc.1 k + (((results.filter resolvedB).map fun r => contribution r k).sum) := by
  induction results generalizing acc with
  | nil => simp
  | cons r t ih =>
    simp only [List.foldl_cons, List.countP_cons, List.filter_cons]
    rcases hs : r.success with _ | _
    · have hres : resolvedB r = false := by simp [resolvedB, hs]
      have hstep : summaryStep acc r = acc := by simp [summaryStep, hs]
      rw [hstep, hres]
      refine ⟨by rw [(ih acc).1]; simp, ?_⟩
      intro k
      rw [(ih acc).2 k]
      simp
    · rcases hnd : r.nutrition_data with _ | nd
      · have hres : resolvedB r = false := by simp [resolvedB, hnd]
        have hstep : summaryStep acc r = acc := by simp [summaryStep, hs, hnd]
        rw [hstep, hres]
        refine ⟨by rw [(ih acc).1]; simp, ?_⟩
        intro k
        rw [(ih acc).2 k]
        simp
      · rcases hp : nd.nutrition_per_100g with _ | p
        · have hres : resolvedB r = false := by simp [resolvedB, hnd, hp]
          have hstep : summaryStep acc r = acc := by simp [summaryStep, hs, hnd, hp]
          rw [hstep, hres]
          refine ⟨by rw [(ih acc).1]; simp, ?_⟩
          intro k
          rw [(ih acc).2 k]
          simp
        · have hres : resolvedB r = true := by simp [resolvedB, hs, hnd, hp]
          have hstep : summaryStep acc r
              = (fun k => acc.1 k + p k * (r.food_item.estimated_weight_grams / 100),
                 acc.2 + 1) := by
            simp [summaryStep, hs, hnd, hp]
          rw [hstep, hres]
          constructor
          · rw [(ih _).1]
            simp
            omega
          · intro k
            rw [(ih _).2 k]
            simp only [if_true, List.map_cons, List.sum_cons, contribution, hnd, hp]
            ring

/-- Demo per-100g payload for summary instances. -/
def p100demo : PKey → ℚ := fun _ => 10

def demoFoodA : FoodItem :=
  { name := "demo a", estimated_weight_grams := 100, cooking_method := "raw",
    confidence := 1 }

def demoFoodB : FoodItem :=
  { name := "demo b", estimated_weight_grams := 100, cooking_method := "raw",
    confidence := 1 }

def demoFoodC : FoodItem :=
  { name := "demo c", estimated_weight_grams := 100, cooking_method := "raw",
    confidence := 1 }

/-- Three identified foods of which two resolve with data and one returns a
success carrying only an unstructured note. -/
def demoResults : List LookupResult :=
  [{ success := true, food_item := demoFoodA,
     nutrition_data := some { nutrition_per_100g := some p100demo, usda_match := none },
     raw_response := none, note := none, error := none, agent_id := 0 },
   { success := true, food_item := demoFoodB,
     nutrition_data := some { nutrition_per_100g := some p100demo, usda_match := none },
     raw_response := none, note := none, error := none, agent_id := 1 },
   { success := true, food_item := demoFoodC, nutrition_data := none,
     raw_response := some "no data", note := some "Could not extract structured JSON",
     error := none, agent_id := 2 }]

/-- C6: the summary's success rate is `successful/total*100` formatted to one
decimal over the identified foods ("66.7%" for 2 of 3), its nutrient totals
are the one-decimal rounding of the sum over only the successfully resolved
results, and with zero identified foods the rate is the literal string "0%"
(the division is guarded, so no division by zero occurs). -/
theorem C6_summary_success_rate_and_totals :
    (∀ (foods : List FoodItem) (results : List LookupResult),
      (generate_summary foods results).success_rate
        = if foods.isEmpty then "0%"
          else fmtPercent1 ((results.countP resolvedB : ℚ) / (foods.length : ℚ) * 100))
    ∧ (∀ (foods : List FoodItem) (results : List LookupResult),
      (generate_summary foods results).successful_nutrition_lookups
        = results.countP resolvedB)
    ∧ (∀ (foods : List FoodItem) (results : List LookupResult) (k : PKey),
      (generate_summary foods results).total_nutrition k
        = pyRound1 (((results.filter resolvedB).map fun r => contribution r k).sum))
    ∧ (∀ results : List LookupResult, (generate_summary [] results).success_rate = "0%")
    ∧ (generate_summary [demoFoodA, demoFoodB, demoFoodC] demoResults).success_rate
        = "66.7%"
    ∧ (generate_summary [demoFoodA, demoFoodB, demoFoodC] demoResults).total_nutrition
        PKey.calories = 20 := by
  have hcount : ∀ (results : List LookupResult),
      (results.foldl summaryStep (fun _ => 0, 0)).2 = results.countP resolvedB := by
    intro results
    rw [(summary_foldl results (fun _ => 0, 0)).1]
    simp
  refine ⟨?_, ?_, ?_, ?_, ?_, ?_⟩
  · intro foods results
    simp only [generate_summary, hcount]
  · intro foods results
    simp only [generate_summary, hcount]
  · intro foods results k
    simp only [generate_summary]
    rw [(summary_foldl results (fun _ => 0, 0)).2 k]
    simp
  · intro results
    rfl
  · with_unfolding_all rfl
  · with_unfolding_all rfl

/-- C7: for every successfully resolved food, each per-portion nutrient is
the per-100g value scaled by `estimated_weight_grams / 100` (rounded to one
decimal by the source, hence within 1/20 of the exact product). -/
theorem C7_portion_scaling :
    ∀ (food : FoodItem) (results : List LookupResult) (k : PKey) (cd : CombinedData),
      (combineOne results food).combined_data = some cd →
      ∃ (r : LookupResult) (nd : NutritionData) (p : PKey → ℚ),
        (combineOne results food).nutrition_lookup = some r
        ∧ r.nutrition_data = some nd
        ∧ nd.nutrition_per_100g = some p
        ∧ cd.nutrition_per_portion k
            = pyRound1 (p k * (food.estimated_weight_grams / 100))
        ∧ |cd.nutrition_per_portion k - p k * food.estimated_weight_grams / 100|
            ≤ 1/20 := by
  intro food results k cd hcd
  have hlk : (combineOne results food).nutrition_lookup
      = results.find? fun r => r.food_item.name == food.name := rfl
  simp only [combineOne] at hcd
  rcases hfind : results.find? fun r => r.food_item.name == food.name with _ | r
  · rw [hfind] at hcd
    simp at hcd
  · rw [hfind] at hcd
    simp only [] at hcd
    rcases hs : r.success with _ | _
    · rw [hs] at hcd
      simp at hcd
    · rw [hs] at hcd
      simp only [if_true] at hcd
      rcases hnd : r.nutrition_data with _ | nd
      · rw [hnd] at hcd
        simp at hcd
      · rw [hnd] at hcd
        simp only [] at hcd
        rcases hp : nd.nutrition_per_100g with _ | p
        · rw [hp] at hcd
          simp at hcd
        · rw [hp] at hcd
          simp only [] at hcd
          rw [Option.some_inj] at hcd
          refine ⟨r, nd, p, by rw [hlk, hfind], hnd, hp, ?_, ?_⟩
          · rw [← hcd]
          · rw [← hcd]
            have h := pyRound1_abs_le (p k * (food.estimated_weight_grams / 100))
            calc |pyRound1 (p k * (food.estimated_weight_grams / 100))
                  - p k * food.estimated_weight_grams / 100|
                = |pyRound1 (p k * (food.estimated_weight_grams / 100))
                  - p k * (food.estimated_weight_grams / 100)| := by ring_nf
              _ ≤ 1/20 := h

/-- Per-100g payload of the C7 witness: 52 kcal per 100 g. -/
def pA : PKey → ℚ := fun k => match k with | .calories => 52 | _ => 0

def ndA : NutritionData := { nutrition_per_100g := some pA, usda_match := none }

def fApple150 : FoodItem :=
  { name := "apple", estimated_weight_grams := 150, cooking_method := "raw",
    confidence := 9/10 }

def rApple : LookupResult :=
  { success := true, food_item := fApple150, nutrition_data := some ndA,
    raw_response := none, note := none, error := none, agent_id := 0 }

/-- Witness for C7: an apple at 150 g with 52 kcal per 100 g yields a portion
of `round(52 * 1.5, 1) = 78` kcal. -/
theorem C7_portion_scaling_witness :
    ∃ cd : CombinedData, (combineOne [rApple] fApple150).combined_data = some cd
      ∧ cd.nutrition_per_portion PKey.calories = 78 := by
  have hs : ((combineOne [rApple] fApple150).combined_data).isSome = true := by
    with_unfolding_all rfl
  obtain ⟨cd, hcd⟩ := Option.isSome_iff_exists.mp hs
  obtain ⟨r, nd, p, hr, hnd, hp, heq, htol⟩ :=
    C7_portion_scaling fApple150 [rApple] PKey.calories cd hcd
  refine ⟨cd, hcd, ?_⟩
  have hr2 : (combineOne [rApple] fApple150).nutrition_lookup = some rApple := rfl
  have hrr : r = rApple := by
    rw [hr] at hr2
    exact Option.some_inj.mp hr2
  subst hrr
  have hnd2 : nd = ndA := by
    rw [show rApple.nutrition_data = some ndA from rfl] at hnd
    exact (Option.some_inj.mp hnd).symm
  subst hnd2
  have hp2 : p = pA := by
    rw [show ndA.nutrition_per_100g = some pA from rfl] at hp
    exact (Option.some_inj.mp hp).symm
  subst hp2
  rw [heq]
  with_unfolding_all rfl

theorem find?_eq_head?_filter {α : Type} (p : α → Bool) (l : List α) :
    l.find? p = (l.filter p).head? := by
  induction l with
  | nil => rfl
  | cons a t ih =>
    rcases h : p a with _ | _
    · rw [List.find?_cons_of_neg _ (by simp [h]), List.filter_cons_of_neg (by simp [h]), ih]
    · rw [List.find?_cons_of_pos _ h, List.filter_cons_of_pos h, List.head?_cons]

theorem filter_name_length_le_one (l : List LookupResult) (x : String)
    (hnd : (l.map fun r => r.food_item.name).Nodup) :
    (l.filter fun r => r.food_item.name == x).length ≤ 1 := by
  induction l with
  | nil => simp
  | cons a t ih =>
    rw [List.map_cons, List.nodup_cons] at hnd
    rw [List.filter_cons]
    by_cases h : a.food_item.name == x
    · rw [if_pos h]
      have hx : a.food_item.name = x := eq_of_beq h
      have hnone : t.filter (fun r => r.food_item.name == x) = [] := by
        rw [List.filter_eq_nil_iff]
        intro b hb hbx
        have hbx2 : b.food_item.name = x := eq_of_beq hbx
        exact hnd.1 (List.mem_map.mpr ⟨b, hb, by rw [hbx2, hx]⟩)
      rw [hnone]
      simp
    · rw [if_neg h]
      exact ih hnd.2

theorem find?_perm_of_unique {α : Type} (p : α → Bool) {l l2 : List α}
    (hperm : l2.Perm l) (hle : (l.filter p).length ≤ 1) :
    l2.find? p = l.find? p := by
  rw [find?_eq_head?_filter, find?_eq_head?_filter]
  have hpf : (l2.filter p).Perm (l.filter p) := hperm.filter p
  rcases hl : l.filter p with _ | ⟨a, t⟩
  · rw [hl] at hpf
    rw [hpf.eq_nil]
  · rw [hl] at hpf hle
    rcases t with _ | ⟨b, t2⟩
    · rw [List.perm_singleton.mp hpf]
    · simp at hle

/-- C9: with pairwise distinct food names and distinct result names, the
combination step pairs each identified food with the result bearing that
food's name — matching is by the name key, not array position — and the
combined report is unchanged under any permutation (completion order) of the
Stage 2 results list. -/
theorem C9_match_by_name_order_independent :
    ∀ (foods : List FoodItem) (results results2 : List LookupResult),
      (foods.map fun f => f.name).Nodup →
      (results.map fun r => r.food_item.name).Nodup →
      results2.Perm results →
      combine_food_and_nutrition_data foods results2
        = combine_food_and_nutrition_data foods results
      ∧ ∀ f ∈ foods, ∀ r ∈ results, r.food_item.name = f.name →
          (combineOne results f).nutrition_lookup = some r := by
  intro foods results results2 hfoods hres hperm
  constructor
  · have hone : ∀ f : FoodItem, combineOne results2 f = combineOne results f := by
      intro f
      have hfind : results2.find? (fun r => r.food_item.name == f.name)
          = results.find? (fun r => r.food_item.name == f.name) :=
        find?_perm_of_unique _ hperm (filter_name_length_le_one results f.name hres)
      unfold combineOne
      rw [hfind]
    have hfuns : combineOne results2 = combineOne results := funext hone
    unfold combine_food_and_nutrition_data
    rw [hfuns]
  · intro f _ r hr hname
    have hlk : (combineOne results f).nutrition_lookup
        = results.find? fun s => s.food_item.name == f.name := rfl
    rw [hlk, find?_eq_head?_filter]
    have hmem : r ∈ results.filter fun s => s.food_item.name == f.name :=
      List.mem_filter.mpr ⟨hr, by simp [hname]⟩
    have hle := filter_name_length_le_one results f.name hres
    rcases hfl : results.filter (fun s => s.food_item.name == f.name) with _ | ⟨a, t⟩
    · rw [hfl] at hmem
      simp at hmem
    · rw [hfl] at hmem hle
      rcases t with _ | ⟨b, t2⟩
      · simp at hmem
        rw [hfl, hmem]
        rfl
      · simp at hle

def fBanana : FoodItem :=
  { name := "banana", estimated_weight_grams := 120, cooking_method := "raw",
    confidence := 8/10 }

/-- A Stage 2 result that is a success carrying only an unstructured note. -/
def rBanana : LookupResult :=
  { success := true, food_item := fBanana, nutrition_data := none,
    raw_response := some "note only",
    note := some "Could not extract structured JSON", error := none, agent_id := 1 }

/-- Witness for C9: swapping the two results (the banana lookup finishing
first) leaves the combined report unchanged, and the apple food is paired
with the apple result. -/
theorem C9_match_by_name_order_independent_witness :
    combine_food_and_nutrition_data [fApple150, fBanana] [rBanana, rApple]
      = combine_food_and_nutrition_data [fApple150, fBanana] [rApple, rBanana]
    ∧ (combineOne [rApple, rBanana] fApple150).nutrition_lookup = some rApple := by
  have h := C9_match_by_name_order_independent [fApple150, fBanana] [rApple, rBanana]
    [rBanana, rApple] (by decide) (by decide) (List.Perm.swap rApple rBanana [])
  exact ⟨h.1, h.2 fApple150 (by simp) rApple (by simp) rfl⟩

/-- C10: a Stage 2 result marked success but carrying no
`nutrition_data`/`nutrition_per_100g` payload counts as unsuccessful for the
summary — it is excluded from `successful_nutrition_lookups` and contributes
nothing to the totals — and its combined entry keeps `combined_data = None`;
the combined output has exactly one entry per identified food, in
identification order. -/
theorem C10_unstructured_success_counts_as_failure :
    (∀ (foods : List FoodItem) (results : List LookupResult),
      (combine_food_and_nutrition_data foods results).map (fun e => e.original_food)
        = foods)
    ∧ (∀ r : LookupResult, r.success = true → r.nutrition_data = none →
        resolvedB r = false)
    ∧ (∀ (foods : List FoodItem) (results : List LookupResult),
      (generate_summary foods results).successful_nutrition_lookups
        = results.countP resolvedB)
    ∧ (∀ (foods : List FoodItem) (results : List LookupResult) (k : PKey),
      (generate_summary foods results).total_nutrition k
        = pyRound1 (((results.filter resolvedB).map fun r => contribution r k).sum))
    ∧ (∀ (results : List LookupResult) (food : FoodItem) (r : LookupResult),
        (combineOne results food).nutrition_lookup = some r →
        r.nutrition_data = none →
        (combineOne results food).combined_data = none) := by
  refine ⟨?_, ?_, ?_, ?_, ?_⟩
  · intro foods results
    unfold combine_food_and_nutrition_data
    rw [List.map_map]
    have hcomp : ((fun e : CombinedItem => e.original_food) ∘ combineOne results) = id := by
      funext f
      rfl
    rw [hcomp, List.map_id]
  · intro r _ hnd
    simp [resolvedB, hnd]
  · intro foods results
    simp only [generate_summary]
    rw [(summary_foldl results (fun _ => 0, 0)).1]
    simp
  · intro foods results k
    simp only [generate_summary]
    rw [(summary_foldl results (fun _ => 0, 0)).2 k]
    simp
  · intro results food r hlk hnd
    have hfind : results.find? (fun s => s.food_item.name == food.name) = some r := hlk
    simp only [combineOne]
    rw [hfind]
    simp only []
    rcases hs : r.success with _ | _ <;> simp [hnd]

/-- Witness for C10 at the banana note-result: it is not counted as resolved
and its combined entry has no combined data. -/
theorem C10_unstructured_success_counts_as_failure_witness :
    resolvedB rBanana = false
    ∧ (combineOne [rBanana] fBanana).combined_data = none := by
  have h2 := C10_unstructured_success_counts_as_failure.2.1 rBanana rfl rfl
  have h5 := C10_unstructured_success_counts_as_failure.2.2.2.2 [rBanana] fBanana rBanana
    (by with_unfolding_all rfl) rfl
  exact ⟨h2, h5⟩

/-! ### Stage 1 identification (`two_stage_analyzer.identify_foods_in_image`
and the streaming Stage 1 of `images/views.py`) -/

/-- Outcome of the vision completion call as seen by Stage 1. -/
inductive VisionOutcome where
  | ok (content : String)
  | fail (error : String)
  deriving DecidableEq, Repr

/-- Result dictionary of `identify_foods_in_image`. -/
structure Stage1Out where
  success : Bool
  foods_identified : List FoodItem
  error : Option String
  raw_response : Option String
  deriving DecidableEq, Repr

/-- `identify_foods_in_image(image_path)`: on a successful completion, scan
the content for a brace-delimited block and decode it (the decode oracle
models `json.loads` plus `.get("foods_identified", [])`); no block found or
a failed decode is a failure result, not a placeholder fallback. -/
def identify_foods_in_image (parseStage1 : String → Option (List FoodItem))
    (vision : VisionOutcome) : Stage1Out :=
  match vision with
  | .fail e =>
    { success := false, foods_identified := [], error := some e, raw_response := none }
  | .ok content =>
    match extractBraced content with
    | none =>
      { success := false, foods_identified := [],
        error := some "No JSON found in response", raw_response := some content }
    | some s =>
      match parseStage1 s with
      | none =>
        { success := false, foods_identified := [],
          error := some "Invalid JSON in response", raw_response := some content }
      | some foods =>
        { success := true, foods_identified := foods, error := none,
          raw_response := some content }

/-- The failed-report value `analyze_food_image` returns when Stage 1
fails. -/
structure Stage1Abort where
  success : Bool
  error : String
  stage : String
  deriving DecidableEq, Repr

/-- The Stage 1 gate of `analyze_food_image`: a Stage 1 failure aborts the
whole analysis with stage `food_identification`; otherwise the identified
foods flow into Stage 2. -/
def analyze_stage1 (parseStage1 : String → Option (List FoodItem))
    (vision : VisionOutcome) : Stage1Abort ⊕ List FoodItem :=
  if (identify_foods_in_image parseStage1 vision).success = false then
    .inl { success := false
           error := "Stage 1 failed: "
             ++ ((identify_foods_in_image parseStage1 vision).error.getD "Unknown error")
           stage := "food_identification" }
  else .inr (identify_foods_in_image parseStage1 vision).foods_identified

/-- `clean_json_response(content)` of `images/views.py`: strip, remove a
leading ```json or ``` fence and a trailing ``` fence, strip again. -/
def clean_json_response (content : String) : String :=
  let c := content.trim
  let c :=
    if c.startsWith "```json" then c.drop 7
    else if c.startsWith "```" then c.drop 3
    else c
  let c := if c.endsWith "```" then c.dropRight 3 else c
  c.trim

/-- One element of a parsed Stage 1 `foods` array in the streaming path. -/
structure ViewsFoodJson where
  name : Option String
  name_chinese : Option String
  name_english : Option String
  confidence : Option ℚ
  category : Option String
  deriving DecidableEq, Repr

/-- A parsed streaming Stage 1 payload; `foods` is `none` when the key is
absent (or not a list). -/
structure ViewsStage1Data where
  foods : Option (List ViewsFoodJson)
  deriving DecidableEq, Repr

/-- One standardized food item of the streaming Stage 1 result; the
HTTP-error placeholders carry only `name` and `confidence`. -/
structure ViewsFood where
  name : String
  confidence : ℚ
  name_chinese : Option String
  name_english : Option String
  usda_search_term : Option String
  category : Option String
  deriving DecidableEq, Repr

/-- `process_stage1_foods_response(stage1_data)`: map each parsed food to the
standardized bilingual item (confidence defaults to 0.8, category to
"other", the USDA search term prefers a non-empty English name); without a
`foods` list the fallback branch iterates over `.get("foods", [])`, here the
empty list. -/
def process_stage1_foods_response (d : ViewsStage1Data) : List ViewsFood :=
  match d.foods with
  | some fs =>
    fs.map fun f =>
      { name := f.name_chinese.getD (f.name.getD "未知食物")
        confidence := f.confidence.getD (4/5)
        name_chinese := some (f.name_chinese.getD (f.name.getD "未知食物"))
        name_english := some (f.name_english.getD "")
        usda_search_term := some (if f.name_english.getD "" ≠ ""
          then f.name_english.getD "" else f.name_chinese.getD (f.name.getD "未知食物"))
        category := some (f.category.getD "other") }
  | none => []

/-- The single placeholder food used when the streaming Stage 1 JSON fails to
parse. -/
def unidentified_placeholder : ViewsFood :=
  { name := "未识别食物", confidence := 1/2, name_chinese := some "未识别食物",
    name_english := some "unidentified food",
    usda_search_term := some "unidentified food", category := some "other" }

/-- The two placeholder foods used when the streaming Stage 1 HTTP call does
not return 200. -/
def default_error_foods : List ViewsFood :=
  [{ name := "苹果", confidence := 3/5, name_chinese := none, name_english := none,
     usda_search_term := none, category := none },
   { name := "香蕉", confidence := 3/5, name_chinese := none, name_english := none,
     usda_search_term := none, category := none }]

/-- The streaming Stage 1 HTTP response. -/
inductive Stage1HttpResp where
  | ok (content : String)
  | err (code : ℕ)
  deriving DecidableEq, Repr

/-- The streaming Stage 1 handling of `analyze_food_image_streaming`: 200
responses are cleaned and parsed, falling back to the single placeholder on
a decode failure; non-200 responses fall back to the two default foods. -/
def views_stage1_food_types (parseViews : String → Option ViewsStage1Data)
    (resp : Stage1HttpResp) : List ViewsFood :=
  match resp with
  | .ok content =>
    match parseViews (clean_json_response content) with
    | some d => process_stage1_foods_response d
    | none => [unidentified_placeholder]
  | .err _ => default_error_foods

/-- What the stream does after Stage 1: an empty food list emits the final
`complete` event and returns (no Stage 2, no placeholders); otherwise
portion estimation proceeds. -/
inductive StreamNext where
  | completeEmpty
  | continueStage2
  deriving DecidableEq, Repr

def views_after_stage1 (food_types : List ViewsFood) : StreamNext :=
  if food_types.isEmpty then .completeEmpty else .continueStage2

/-- Counterexample to C4 as stated: a Stage 1 response with no JSON object
makes the two-stage analyzer's identification return a failure — no
placeholder foods — and that failure aborts the whole analysis with stage
`food_identification`. -/
theorem C4_no_placeholder_counterexample :
    (identify_foods_in_image (fun _ => none) (.ok "the model answered with prose"))
      = { success := false, foods_identified := [],
          error := some "No JSON found in response",
          raw_response := some "the model answered with prose" }
    ∧ analyze_stage1 (fun _ => none) (.ok "the model answered with prose")
      = .inl { success := false, error := "Stage 1 failed: No JSON found in response",
               stage := "food_identification" } := by
  constructor
  · with_unfolding_all rfl
  · with_unfolding_all rfl

/-- C4 as amended: only the streaming analysis path falls back to placeholder
foods — one placeholder on a Stage 1 JSON decode failure and two on a failed
HTTP call, the pipeline continuing — while an empty parsed food array yields
an empty list and the stream completes without Stage 2 and without
placeholders; in the two-stage analyzer, a response with no JSON object or
invalid JSON instead returns a failure that aborts the whole analysis, and an
empty parsed array yields a success with an empty food list. -/
theorem C4_fallback_policy_split :
    (∀ (parse : String → Option (List FoodItem)) (content : String),
      extractBraced content = none →
      identify_foods_in_image parse (.ok content)
        = { success := false, foods_identified := [],
            error := some "No JSON found in response", raw_response := some content }
      ∧ analyze_stage1 parse (.ok content)
        = .inl { success := false, error := "Stage 1 failed: No JSON found in response",
                 stage := "food_identification" })
    ∧ (∀ (parse : String → Option (List FoodItem)) (content s : String),
        extractBraced content = some s → parse s = none →
        identify_foods_in_image parse (.ok content)
          = { success := false, foods_identified := [],
              error := some "Invalid JSON in response", raw_response := some content })
    ∧ (∀ (parse : String → Option (List FoodItem)) (content s : String),
        extractBraced content = some s → parse s = some [] →
        identify_foods_in_image parse (.ok content)
          = { success := true, foods_identified := [], error := none,
              raw_response := some content })
    ∧ (∀ (parseViews : String → Option ViewsStage1Data) (content : String),
        parseViews (clean_json_response content) = none →
        views_stage1_food_types parseViews (.ok content) = [unidentified_placeholder]
        ∧ views_after_stage1 [unidentified_placeholder] = .continueStage2)
    ∧ (∀ (parseViews : String → Option ViewsStage1Data) (code : ℕ),
        views_stage1_food_types parseViews (.err code) = default_error_foods)
    ∧ (∀ (parseViews : String → Option ViewsStage1Data) (content : String)
          (d : ViewsStage1Data),
        parseViews (clean_json_response content) = some d →
        d.foods = some [] →
        views_stage1_food_types parseViews (.ok content) = []
        ∧ views_after_stage1 (views_stage1_food_types parseViews (.ok content))
            = .completeEmpty) := by
  refine ⟨?_, ?_, ?_, ?_, ?_, ?_⟩
  · intro parse content hext
    unfold analyze_stage1
    unfold identify_foods_in_image
    simp only []
    rw [hext]
    exact ⟨rfl, by with_unfolding_all rfl⟩
  · intro parse content s hext hparse
    unfold identify_foods_in_image
    simp only []
    rw [hext]
    simp only []
    rw [hparse]
  · intro parse content s hext hparse
    unfold identify_foods_in_image
    simp only []
    rw [hext]
    simp only []
    rw [hparse]
  · intro parseViews content hparse
    unfold views_stage1_food_types
    simp only []
    rw [hparse]
    exact ⟨rfl, rfl⟩
  · intro parseViews code
    rfl
  · intro parseViews content d hparse hfoods
    unfold views_stage1_food_types
    simp only []
    rw [hparse]
    unfold process_stage1_foods_response
    simp only []
    rw [hfoods]
    exact ⟨rfl, rfl⟩

/-- Witness for C4 as amended: a braced but empty payload identifies
successfully with an empty list; a non-JSON streaming response yields the
single placeholder; a failed HTTP call yields the two default foods. -/
theorem C4_fallback_policy_split_witness :
    identify_foods_in_image (fun _ => some []) (.ok "x \x7b y \x7d z")
      = { success := true, foods_identified := [], error := none,
          raw_response := some "x \x7b y \x7d z" }
    ∧ views_stage1_food_types (fun _ => none) (.ok "not json")
      = [unidentified_placeholder]
    ∧ views_stage1_food_types (fun _ => none) (.err 500) = default_error_foods := by
  have h3 := C4_fallback_policy_split.2.2.1 (fun _ => some []) "x \x7b y \x7d z"
    "\x7b y \x7d" (by with_unfolding_all rfl) rfl
  have h4 := C4_fallback_policy_split.2.2.2.1 (fun _ => none) "not json" rfl
  have h5 := C4_fallback_policy_split.2.2.2.2.1 (fun _ => none) 500
  exact ⟨h3, h4.1, h5⟩
